import Mathlib

/-!
Shallow embedding of the pdf_formulary pipeline
(`src/plan_analysis.py` and `src/formulary_analysis.py`).

Tabular data is modelled as lists of typed rows; pandas Series values that
may be either numeric or textual (NDC, CONTRACT_ID, PLAN_ID) are modelled by
`PyVal`; Python float arithmetic is idealized as exact rational arithmetic
(`ℚ`), with Python `round` modelled as round-half-to-even on rationals.
Fallible Python code (operations that can raise) returns `Except PyError`.
-/

/-- A pandas cell that is either an integer or a string, as produced by
reading a delimited file.  `pyStr` is Python `str(...)` on such a value. -/
inductive PyVal where
  | int (n : Int)
  | str (s : String)
deriving DecidableEq, Repr

def pyStr : PyVal → String
  | .int n => toString n
  | .str s => s

/-- Python `str.zfill w`: left-pad with zeros to width `w`, keeping a leading
sign character in place; strings already of length `≥ w` are unchanged. -/
def zfill (w : Nat) (s : String) : String :=
  if s.length < w then
    match s.data with
    | c :: rest =>
      if c = '-' ∨ c = '+' then String.mk (c :: (List.replicate (w - s.length) '0' ++ rest))
      else String.mk (List.replicate (w - s.length) '0' ++ s.data)
    | [] => String.mk (List.replicate w '0')
  else s

/-- NDC normalization as performed at every comparison site in the source:
`str(x).zfill(11)`. -/
def normalizeNdc (v : PyVal) : String := zfill 11 (pyStr v)

/-- Python exceptions that the embedded code can raise. -/
inductive PyError where
  | typeError
  | keyError
  | zeroDivisionError
deriving DecidableEq, Repr

/-- Outcome of attempting to decode and parse a file with one encoding. -/
inductive DecodeResult (α : Type) where
  | ok (t : α)
  | unicodeError
  | otherError
deriving DecidableEq, Repr

def DecodeResult.toOption {α : Type} : DecodeResult α → Option α
  | .ok t => some t
  | .unicodeError => none
  | .otherError => none

/-- The encoding-fallback loop shared by both loaders: try each encoding in
order, break on the first success, continue on any failure. -/
def tryEncodings {α : Type} (file : String → DecodeResult α) : List String → Option α
  | [] => none
  | e :: rest =>
    match file e with
    | .ok t => some t
    | .unicodeError => tryEncodings file rest
    | .otherError => tryEncodings file rest

/-- The candidate encodings hard-coded in both loaders. -/
def sourceEncodings : List String := ["utf-8", "latin1", "cp1252"]

/-- One row of a formulary snapshot file. -/
structure FormularyRow where
  ndc : PyVal
  formularyId : String
  tier : Int
  pa : String
  st : String
deriving DecidableEq, Repr

/-- One row of a plan-information snapshot file. -/
structure PlanRow where
  contractId : PyVal
  planId : PyVal
  contractName : String
  planName : String
  formularyId : String
deriving DecidableEq, Repr

/-- The PLAN_KEY column added by `load_plans_data`:
`CONTRACT_ID.astype(str) + '_' + PLAN_ID.astype(str)`. -/
def PlanRow.plan_key (p : PlanRow) : String := pyStr p.contractId ++ "_" ++ pyStr p.planId

/-- Count of distinct plan keys: `plans_df['PLAN_KEY'].nunique()`. -/
def nUniquePlanKeys (ps : List PlanRow) : Nat := ((ps.map PlanRow.plan_key).toFinset).card

namespace PlanAnalysis

/-- `load_plans_data`: try each encoding; if every attempt fails the local
`plans_df` stays `None` and the subsequent column assignment raises a
`TypeError`; on success the plan-key column is added (derived here) and the
distinct-key count is returned alongside the table. -/
def load_plans_data (file : String → DecodeResult (List PlanRow)) (encodings : List String) :
    Except PyError (List PlanRow × Nat) :=
  match tryEncodings file encodings with
  | none => .error .typeError
  | some df => .ok (df, nUniquePlanKeys df)

/-- `load_formulary_data` (plan_analysis.py): try each encoding and return
whatever the loop produced — `none` when every encoding failed.  The function
itself never raises. -/
def load_formulary_data (file : String → DecodeResult (List FormularyRow))
    (encodings : List String) : Except PyError (Option (List FormularyRow)) :=
  .ok (tryEncodings file encodings)

/-- Rows of the formulary whose zero-padded NDC equals the zero-padded target
(`analyze_plan_changes` lines 60–63); the mask does not rewrite the column. -/
def filtered_formulary (rows : List FormularyRow) (target : PyVal) : List FormularyRow :=
  rows.filter (fun r => normalizeNdc r.ndc == normalizeNdc target)

/-- One row of the inner join of formulary rows with plan rows. -/
structure MergedRow where
  form : FormularyRow
  plan : PlanRow
deriving DecidableEq, Repr

def MergedRow.plan_key (r : MergedRow) : String := r.plan.plan_key

/-- `pd.merge(formulary, plans, on='FORMULARY_ID', how='inner')`: left rows in
order, each paired with every matching right row in order. -/
def merge_on_formulary_id (fs : List FormularyRow) (ps : List PlanRow) : List MergedRow :=
  fs.flatMap (fun f => (ps.filter (fun p => p.formularyId == f.formularyId)).map
    (fun p => MergedRow.mk f p))

/-- `drop_duplicates('PLAN_KEY')` with the default `keep='first'`. -/
def drop_duplicates_aux : List MergedRow → List String → List MergedRow
  | [], _ => []
  | r :: rest, seen =>
    if r.plan_key ∈ seen then drop_duplicates_aux rest seen
    else r :: drop_duplicates_aux rest (r.plan_key :: seen)

def drop_duplicates_plan_key (l : List MergedRow) : List MergedRow := drop_duplicates_aux l []

/-- The joined, deduplicated plan-level view of one period for one NDC
(the `old_merged` / `new_merged` DataFrames). -/
def merged_view (fs : List FormularyRow) (ps : List PlanRow) (target : PyVal) : List MergedRow :=
  drop_duplicates_plan_key (merge_on_formulary_id (filtered_formulary fs target) ps)

def plan_key_set (l : List MergedRow) : Finset String := (l.map MergedRow.plan_key).toFinset

/-- `set(old_merged['PLAN_KEY'])` for a period. -/
def unique_plan_keys (fs : List FormularyRow) (ps : List PlanRow) (target : PyVal) :
    Finset String := plan_key_set (merged_view fs ps target)

/-- `added_plans = new_plans - old_plans`. -/
def added_plans_set (oldF : List FormularyRow) (oldP : List PlanRow)
    (newF : List FormularyRow) (newP : List PlanRow) (target : PyVal) : Finset String :=
  unique_plan_keys newF newP target \ unique_plan_keys oldF oldP target

/-- `removed_plans = old_plans - new_plans`. -/
def removed_plans_set (oldF : List FormularyRow) (oldP : List PlanRow)
    (newF : List FormularyRow) (newP : List PlanRow) (target : PyVal) : Finset String :=
  unique_plan_keys oldF oldP target \ unique_plan_keys newF newP target

/-- `maintained_plans = old_plans.intersection(new_plans)`. -/
def maintained_plans_set (oldF : List FormularyRow) (oldP : List PlanRow)
    (newF : List FormularyRow) (newP : List PlanRow) (target : PyVal) : Finset String :=
  unique_plan_keys oldF oldP target ∩ unique_plan_keys newF newP target

end PlanAnalysis

/-- Nearest integer to a rational, ties to even — the rounding Python's
`round` performs (float representation idealized as exact). -/
def roundHalfEven (q : ℚ) : ℤ :=
  if q - ⌊q⌋ < 1 / 2 then ⌊q⌋
  else if q - ⌊q⌋ > 1 / 2 then ⌊q⌋ + 1
  else if ⌊q⌋ % 2 = 0 then ⌊q⌋ else ⌊q⌋ + 1

/-- Python `round(q, nd)`. -/
def pyRound (q : ℚ) (nd : Nat) : ℚ := (roundHalfEven (q * 10 ^ nd) : ℚ) / 10 ^ nd

/-- The three aggregate metrics computed over a set of joined rows. -/
structure Metrics where
  avg_tier : ℚ
  pa_percent : ℚ
  st_percent : ℚ
deriving DecidableEq, Repr

namespace PlanAnalysis

/-- `calculate_metrics` (plan_analysis.py lines 87–99): zeros on an empty
row set, otherwise mean tier and percentage of Y flags. -/
def calculate_metrics (rows : List MergedRow) : Metrics :=
  if rows.length = 0 then { avg_tier := 0, pa_percent := 0, st_percent := 0 }
  else
    { avg_tier := ((rows.map (fun r => (r.form.tier : ℚ))).sum) / rows.length
      pa_percent := ((rows.countP (fun r => r.form.pa == "Y") : ℚ) / rows.length) * 100
      st_percent := ((rows.countP (fun r => r.form.st == "Y") : ℚ) / rows.length) * 100 }

/-- Round all three metrics to one decimal place, as the plan-level report
does when assembling `metric_changes`. -/
def round1 (m : Metrics) : Metrics :=
  { avg_tier := pyRound m.avg_tier 1
    pa_percent := pyRound m.pa_percent 1
    st_percent := pyRound m.st_percent 1 }

/-- `view.set_index('PLAN_KEY').sort_index()` restricted to the maintained
keys: the unique row for each maintained key, in ascending key order. -/
def maintained_rows (view : List MergedRow) (m : Finset String) : List MergedRow :=
  (m.sort (· ≤ ·)).filterMap (fun k => view.find? (fun r => r.plan_key == k))

/-- `new_merged[new_merged['PLAN_KEY'].isin(added_plans)]`. -/
def added_rows (view : List MergedRow) (added : Finset String) : List MergedRow :=
  view.filter (fun r => r.plan_key ∈ added)

/-- The observable output of `analyze_plan_changes`: the returned dictionary,
flattened. -/
structure ComparisonResult where
  ndc : PyVal
  addedCount : Nat
  removedCount : Nat
  maintainedCount : Nat
  allOld : Metrics
  allNew : Metrics
  maintainedOld : Metrics
  maintainedNew : Metrics
  addedMetrics : Metrics
  priorAuthChanges : Nat
  stepTherapyChanges : Nat
  oldCoveragePercent : ℚ
  newCoveragePercent : ℚ
  totalOld : Nat
  totalNew : Nat
deriving DecidableEq, Repr

/-- `analyze_plan_changes` (plan_analysis.py lines 48–183). -/
def analyze_plan_changes (oldF : List FormularyRow) (oldP : List PlanRow) (oldTotal : Nat)
    (newF : List FormularyRow) (newP : List PlanRow) (newTotal : Nat)
    (target : PyVal) : ComparisonResult :=
  { ndc := target
    addedCount := (added_plans_set oldF oldP newF newP target).card
    removedCount := (removed_plans_set oldF oldP newF newP target).card
    maintainedCount := (maintained_plans_set oldF oldP newF newP target).card
    allOld := round1 (calculate_metrics (merged_view oldF oldP target))
    allNew := round1 (calculate_metrics (merged_view newF newP target))
    maintainedOld :=
      if maintained_plans_set oldF oldP newF newP target = ∅ then
        round1 { avg_tier := 0, pa_percent := 0, st_percent := 0 }
      else
        round1 (calculate_metrics (maintained_rows (merged_view oldF oldP target)
          (maintained_plans_set oldF oldP newF newP target)))
    maintainedNew :=
      if maintained_plans_set oldF oldP newF newP target = ∅ then
        round1 { avg_tier := 0, pa_percent := 0, st_percent := 0 }
      else
        round1 (calculate_metrics (maintained_rows (merged_view newF newP target)
          (maintained_plans_set oldF oldP newF newP target)))
    addedMetrics := round1 (calculate_metrics (added_rows (merged_view newF newP target)
      (added_plans_set oldF oldP newF newP target)))
    priorAuthChanges :=
      if maintained_plans_set oldF oldP newF newP target = ∅ then 0
      else
        ((maintained_rows (merged_view newF newP target)
            (maintained_plans_set oldF oldP newF newP target)).zip
          (maintained_rows (merged_view oldF oldP target)
            (maintained_plans_set oldF oldP newF newP target))).countP
          (fun pr => pr.1.form.pa != pr.2.form.pa)
    stepTherapyChanges :=
      if maintained_plans_set oldF oldP newF newP target = ∅ then 0
      else
        ((maintained_rows (merged_view newF newP target)
            (maintained_plans_set oldF oldP newF newP target)).zip
          (maintained_rows (merged_view oldF oldP target)
            (maintained_plans_set oldF oldP newF newP target))).countP
          (fun pr => pr.1.form.st != pr.2.form.st)
    oldCoveragePercent :=
      pyRound (if 0 < oldTotal then
        ((unique_plan_keys oldF oldP target).card : ℚ) / oldTotal * 100 else 0) 2
    newCoveragePercent :=
      pyRound (if 0 < newTotal then
        ((unique_plan_keys newF newP target).card : ℚ) / newTotal * 100 else 0) 2
    totalOld := oldTotal
    totalNew := newTotal }

/-- One period's pre-loaded data, as stored in the `period_data` dictionary. -/
structure SnapshotData where
  formulary_df : List FormularyRow
  plans_df : List PlanRow
  total_plans : Nat
deriving Repr

/-- One row of the long-form metrics table built by
`collect_metrics_by_period`. -/
structure MetricsRow where
  drug : String
  ndc : PyVal
  period : String
  coverage : ℚ
  total_plans : Nat
  maintained_plans : Nat
  added_plans : Nat
  removed_plans : Nat
  avg_tier : ℚ
  pa_percent : ℚ
  st_percent : ℚ
deriving DecidableEq, Repr

/-- The comparison row recorded for the new period of a consecutive pair
(`metrics` dictionary, plan_analysis.py lines 212–224). -/
def comparison_row (drug : String) (ndc : PyVal) (newPeriod : String)
    (oldSnap newSnap : SnapshotData) : MetricsRow :=
  let c := analyze_plan_changes oldSnap.formulary_df oldSnap.plans_df oldSnap.total_plans
    newSnap.formulary_df newSnap.plans_df newSnap.total_plans ndc
  { drug := drug, ndc := ndc, period := newPeriod
    coverage := c.newCoveragePercent
    total_plans := c.totalNew
    maintained_plans := c.maintainedCount
    added_plans := c.addedCount
    removed_plans := c.removedCount
    avg_tier := c.allNew.avg_tier
    pa_percent := c.allNew.pa_percent
    st_percent := c.allNew.st_percent }

/-- The baseline row recorded once for the very first period
(`first_metrics` dictionary, plan_analysis.py lines 228–240): the old
period's own aggregates and zero change counts. -/
def baseline_row (drug : String) (ndc : PyVal) (oldPeriod : String)
    (oldSnap newSnap : SnapshotData) : MetricsRow :=
  let c := analyze_plan_changes oldSnap.formulary_df oldSnap.plans_df oldSnap.total_plans
    newSnap.formulary_df newSnap.plans_df newSnap.total_plans ndc
  { drug := drug, ndc := ndc, period := oldPeriod
    coverage := c.oldCoveragePercent
    total_plans := c.totalOld
    maintained_plans := 0
    added_plans := 0
    removed_plans := 0
    avg_tier := c.allOld.avg_tier
    pa_percent := c.allOld.pa_percent
    st_percent := c.allOld.st_percent }

/-- The rows produced for one (drug, NDC) pair: for each consecutive period
pair one comparison row, preceded at the first pair by the baseline row. -/
def metric_rows (period_data : String → SnapshotData) (time_periods : List String)
    (drug : String) (ndc : PyVal) : List MetricsRow :=
  ((time_periods.zip time_periods.tail).enum).flatMap (fun ip =>
    let row := comparison_row drug ndc ip.2.2 (period_data ip.2.1) (period_data ip.2.2)
    if ip.1 = 0 then
      [baseline_row drug ndc ip.2.1 (period_data ip.2.1) (period_data ip.2.2), row]
    else [row])

/-- The final `sort_values(['drug', 'ndc', 'period'])` ordering; the mixed
NDC column is compared through its string form. -/
def row_le (a b : MetricsRow) : Prop :=
  a.drug < b.drug ∨ (a.drug = b.drug ∧ (pyStr a.ndc < pyStr b.ndc ∨
    (pyStr a.ndc = pyStr b.ndc ∧ a.period ≤ b.period)))

instance : DecidableRel row_le := fun a b => by
  unfold row_le
  exact inferInstance

/-- `collect_metrics_by_period` (plan_analysis.py lines 185–251).  The
collected `metrics_data` list is converted to a DataFrame and sorted with
`sort_values(['drug', 'ndc', 'period'])`; when no row was collected,
`pd.DataFrame([])` has no columns at all, so that sort raises
`KeyError: 'drug'` — an empty collection is an error, not an empty table. -/
def collect_metrics_by_period (period_data : String → SnapshotData)
    (time_periods : List String) (drug_mapping : List (String × List PyVal)) :
    Except PyError (List MetricsRow) :=
  if drug_mapping.flatMap
      (fun dm => dm.2.flatMap (fun ndc => metric_rows period_data time_periods dm.1 ndc)) = []
  then Except.error PyError.keyError
  else
    Except.ok (List.insertionSort row_le
      (drug_mapping.flatMap
        (fun dm => dm.2.flatMap (fun ndc => metric_rows period_data time_periods dm.1 ndc))))

end PlanAnalysis

namespace FormularyAnalysis

/-- `load_formulary_data` (formulary_analysis.py lines 3–13): normalize the
NDC column in place, then keep the rows equal to the normalized target.  The
parsed file stands in for the path argument. -/
def load_formulary_data (df : List FormularyRow) (target : PyVal) : List FormularyRow :=
  (df.map (fun r => { r with ndc := PyVal.str (normalizeNdc r.ndc) })).filter
    (fun r => pyStr r.ndc == normalizeNdc target)

/-- The dictionary returned by `get_current_requirements` when data exists. -/
structure Requirements where
  avg_tier : ℚ
  prior_auth_percent : ℚ
  step_therapy_percent : ℚ
deriving DecidableEq, Repr

/-- `get_current_requirements` (formulary_analysis.py lines 52–63): `None` on
an empty row set, otherwise means rounded to two decimals. -/
def get_current_requirements (data : List FormularyRow) : Option Requirements :=
  if data.length = 0 then none
  else
    some
      { avg_tier := pyRound (((data.map (fun r => (r.tier : ℚ))).sum) / data.length) 2
        prior_auth_percent :=
          pyRound (((data.countP (fun r => r.pa == "Y")) : ℚ) / data.length * 100) 2
        step_therapy_percent :=
          pyRound (((data.countP (fun r => r.st == "Y")) : ℚ) / data.length * 100) 2 }

def formulary_id_set (rows : List FormularyRow) : Finset String :=
  (rows.map FormularyRow.formularyId).toFinset

/-- `set(old_data['FORMULARY_ID'].unique())` for one period and NDC. -/
def formularies_of (df : List FormularyRow) (target : PyVal) : Finset String :=
  formulary_id_set (load_formulary_data df target)

/-- `added_formularies = new_formularies - old_formularies`. -/
def added_formularies_set (oldDf newDf : List FormularyRow) (target : PyVal) : Finset String :=
  formularies_of newDf target \ formularies_of oldDf target

/-- `removed_formularies = old_formularies - new_formularies`. -/
def removed_formularies_set (oldDf newDf : List FormularyRow) (target : PyVal) : Finset String :=
  formularies_of oldDf target \ formularies_of newDf target

/-- `maintained_formularies = old_formularies.intersection(new_formularies)`. -/
def maintained_formularies_set (oldDf newDf : List FormularyRow) (target : PyVal) :
    Finset String :=
  formularies_of oldDf target ∩ formularies_of newDf target

/-- The observable output of `compare_formulary_periods`. -/
structure FAComparison where
  ndc : PyVal
  addedCount : Nat
  removedCount : Nat
  maintainedCount : Nat
  addedList : List String
  removedList : List String
  avgTierChange : ℚ
  priorAuthChanges : Nat
  stepTherapyChanges : Nat
  oldCoveragePercent : ℚ
  newCoveragePercent : ℚ
  oldRequirements : Option Requirements
  newRequirements : Option Requirements
deriving DecidableEq, Repr

/-- Per-maintained-formulary deltas: tier difference and flag changes between
the first matching row of each period (`.iloc[0]`).  The fallback branch is
unreachable because each maintained id has a row in both periods. -/
def maintained_changes (oldData newData : List FormularyRow) (maintained : Finset String) :
    List (Int × Bool × Bool) :=
  (maintained.sort (· ≤ ·)).map (fun fid =>
    match oldData.find? (fun r => r.formularyId == fid),
        newData.find? (fun r => r.formularyId == fid) with
    | some o, some n => (n.tier - o.tier, n.pa != o.pa, n.st != o.st)
    | _, _ => (0, false, false))

/-- `compare_formulary_periods` (formulary_analysis.py lines 65–135).  The
coverage divisions are unguarded in the source: a zero distinct-formulary
count for either whole file raises `ZeroDivisionError`. -/
def compare_formulary_periods (oldDf newDf : List FormularyRow) (target : PyVal) :
    Except PyError FAComparison :=
  if (formulary_id_set oldDf).card = 0 then .error .zeroDivisionError
  else if (formulary_id_set newDf).card = 0 then .error .zeroDivisionError
  else
    .ok
      { ndc := target
        addedCount := (added_formularies_set oldDf newDf target).card
        removedCount := (removed_formularies_set oldDf newDf target).card
        maintainedCount := (maintained_formularies_set oldDf newDf target).card
        addedList := (added_formularies_set oldDf newDf target).sort (· ≤ ·)
        removedList := (removed_formularies_set oldDf newDf target).sort (· ≤ ·)
        avgTierChange :=
          if maintained_formularies_set oldDf newDf target = ∅ then 0
          else
            pyRound
              ((((maintained_changes (load_formulary_data oldDf target)
                    (load_formulary_data newDf target)
                    (maintained_formularies_set oldDf newDf target)).map
                  (fun c => (c.1 : ℚ))).sum) /
                (maintained_formularies_set oldDf newDf target).card) 2
        priorAuthChanges :=
          (maintained_changes (load_formulary_data oldDf target)
            (load_formulary_data newDf target)
            (maintained_formularies_set oldDf newDf target)).countP (fun c => c.2.1)
        stepTherapyChanges :=
          (maintained_changes (load_formulary_data oldDf target)
            (load_formulary_data newDf target)
            (maintained_formularies_set oldDf newDf target)).countP (fun c => c.2.2)
        oldCoveragePercent :=
          pyRound (((formularies_of oldDf target).card : ℚ) /
            ((formulary_id_set oldDf).card : ℚ) * 100) 2
        newCoveragePercent :=
          pyRound (((formularies_of newDf target).card : ℚ) /
            ((formulary_id_set newDf).card : ℚ) * 100) 2
        oldRequirements := get_current_requirements (load_formulary_data oldDf target)
        newRequirements := get_current_requirements (load_formulary_data newDf target) }

end FormularyAnalysis

section ZfillLemmas

theorem zfill_length (w : Nat) (s : String) : (zfill w s).length = max s.length w := by
  have hdata : s.length = s.data.length := rfl
  unfold zfill
  split
  · rename_i hlt
    split
    · rename_i c rest heq
      have hlen : s.length = rest.length + 1 := by rw [hdata, heq]; simp
      split
      · show (c :: (List.replicate (w - s.length) '0' ++ rest)).length = max s.length w
        simp only [List.length_cons, List.length_append, List.length_replicate]
        omega
      · show (List.replicate (w - s.length) '0' ++ s.data).length = max s.length w
        simp only [List.length_append, List.length_replicate]
        omega
    · rename_i heq
      have hlen : s.length = 0 := by rw [hdata, heq]; rfl
      show (List.replicate w '0').length = max s.length w
      simp only [List.length_replicate]
      omega
  · rename_i hge
    omega

theorem zfill_of_ge (w : Nat) (s : String) (h : w ≤ s.length) : zfill w s = s := by
  unfold zfill
  rw [if_neg]
  omega

end ZfillLemmas

/-- C9: NDC normalization is idempotent — normalizing an already-normalized
string changes nothing, `normalize(normalize(s)) == normalize(s)`. -/
theorem c9_normalize_idempotent (s : String) :
    normalizeNdc (PyVal.str (normalizeNdc (PyVal.str s))) = normalizeNdc (PyVal.str s) := by
  show zfill 11 (zfill 11 s) = zfill 11 s
  apply zfill_of_ge
  rw [zfill_length]
  omega

section SetAlgebra

lemma sdiff_inter_algebra (o n : Finset String) :
    (n \ o) ∩ (o \ n) = ∅ ∧ o = (o ∩ n) ∪ (o \ n) ∧ n = (o ∩ n) ∪ (n \ o) := by
  refine ⟨?_, ?_, ?_⟩ <;>
  · ext x
    simp only [Finset.mem_inter, Finset.mem_sdiff, Finset.mem_union, Finset.not_mem_empty,
      iff_def]
    tauto

end SetAlgebra

/-- C1: for every pair of snapshots and target NDC, the plan-key sets (and
likewise the formulary-id sets of the second comparator) satisfy
`maintained = old ∩ new`, `added = new − old`, `removed = old − new`,
`added ∩ removed = ∅`, `old = maintained ∪ removed`,
`new = maintained ∪ added`. -/
theorem c1_set_algebra (oldF newF : List FormularyRow) (oldP newP : List PlanRow)
    (target : PyVal) (oldDf newDf : List FormularyRow) (target2 : PyVal) :
    (PlanAnalysis.maintained_plans_set oldF oldP newF newP target =
        PlanAnalysis.unique_plan_keys oldF oldP target ∩
          PlanAnalysis.unique_plan_keys newF newP target
      ∧ PlanAnalysis.added_plans_set oldF oldP newF newP target =
        PlanAnalysis.unique_plan_keys newF newP target \
          PlanAnalysis.unique_plan_keys oldF oldP target
      ∧ PlanAnalysis.removed_plans_set oldF oldP newF newP target =
        PlanAnalysis.unique_plan_keys oldF oldP target \
          PlanAnalysis.unique_plan_keys newF newP target
      ∧ PlanAnalysis.added_plans_set oldF oldP newF newP target ∩
          PlanAnalysis.removed_plans_set oldF oldP newF newP target = ∅
      ∧ PlanAnalysis.unique_plan_keys oldF oldP target =
        PlanAnalysis.maintained_plans_set oldF oldP newF newP target ∪
          PlanAnalysis.removed_plans_set oldF oldP newF newP target
      ∧ PlanAnalysis.unique_plan_keys newF newP target =
        PlanAnalysis.maintained_plans_set oldF oldP newF newP target ∪
          PlanAnalysis.added_plans_set oldF oldP newF newP target)
    ∧ (FormularyAnalysis.maintained_formularies_set oldDf newDf target2 =
        FormularyAnalysis.formularies_of oldDf target2 ∩
          FormularyAnalysis.formularies_of newDf target2
      ∧ FormularyAnalysis.added_formularies_set oldDf newDf target2 =
        FormularyAnalysis.formularies_of newDf target2 \
          FormularyAnalysis.formularies_of oldDf target2
      ∧ FormularyAnalysis.removed_formularies_set oldDf newDf target2 =
        FormularyAnalysis.formularies_of oldDf target2 \
          FormularyAnalysis.formularies_of newDf target2
      ∧ FormularyAnalysis.added_formularies_set oldDf newDf target2 ∩
          FormularyAnalysis.removed_formularies_set oldDf newDf target2 = ∅
      ∧ FormularyAnalysis.formularies_of oldDf target2 =
        FormularyAnalysis.maintained_formularies_set oldDf newDf target2 ∪
          FormularyAnalysis.removed_formularies_set oldDf newDf target2
      ∧ FormularyAnalysis.formularies_of newDf target2 =
        FormularyAnalysis.maintained_formularies_set oldDf newDf target2 ∪
          FormularyAnalysis.added_formularies_set oldDf newDf target2) := by
  refine ⟨⟨rfl, rfl, rfl, ?_, ?_, ?_⟩, ⟨rfl, rfl, rfl, ?_, ?_, ?_⟩⟩
  · exact (sdiff_inter_algebra (PlanAnalysis.unique_plan_keys oldF oldP target)
      (PlanAnalysis.unique_plan_keys newF newP target)).1
  · exact (sdiff_inter_algebra (PlanAnalysis.unique_plan_keys oldF oldP target)
      (PlanAnalysis.unique_plan_keys newF newP target)).2.1
  · exact (sdiff_inter_algebra (PlanAnalysis.unique_plan_keys oldF oldP target)
      (PlanAnalysis.unique_plan_keys newF newP target)).2.2
  · exact (sdiff_inter_algebra (FormularyAnalysis.formularies_of oldDf target2)
      (FormularyAnalysis.formularies_of newDf target2)).1
  · exact (sdiff_inter_algebra (FormularyAnalysis.formularies_of oldDf target2)
      (FormularyAnalysis.formularies_of newDf target2)).2.1
  · exact (sdiff_inter_algebra (FormularyAnalysis.formularies_of oldDf target2)
      (FormularyAnalysis.formularies_of newDf target2)).2.2

section LoaderLemmas

lemma tryEncodings_eq_findSome {α : Type} (file : String → DecodeResult α)
    (encs : List String) :
    tryEncodings file encs = encs.findSome? (fun e => (file e).toOption) := by
  induction encs with
  | nil => rfl
  | cons e rest ih =>
    unfold tryEncodings
    cases h : file e <;> simp [List.findSome?_cons, DecodeResult.toOption, h, ih]

end LoaderLemmas

/-- C2 counterexample: when every candidate encoding fails to decode,
`load_formulary_data` does not fail at all — it returns normally with no
table (the Python function returns `None`; no `LoadError` is raised). -/
theorem c2_counterexample :
    PlanAnalysis.load_formulary_data (fun _ => DecodeResult.unicodeError) sourceEncodings =
      Except.ok none := rfl

/-- C2 amended: each loader returns the table produced by the first encoding
that decodes and parses without error; when every candidate encoding fails,
`load_formulary_data` returns no table without raising any error and
`load_plans_data` raises a `TypeError` (while adding the plan-key column to
the missing table), not a `LoadError`; no required-column validation is
performed at load time. -/
theorem c2_first_success_loader (ffile : String → DecodeResult (List FormularyRow))
    (pfile : String → DecodeResult (List PlanRow)) (encs : List String) :
    PlanAnalysis.load_formulary_data ffile encs =
      Except.ok (encs.findSome? (fun e => (ffile e).toOption))
    ∧ (encs.findSome? (fun e => (pfile e).toOption) = none →
        PlanAnalysis.load_plans_data pfile encs = Except.error PyError.typeError)
    ∧ (∀ t, encs.findSome? (fun e => (pfile e).toOption) = some t →
        PlanAnalysis.load_plans_data pfile encs = Except.ok (t, nUniquePlanKeys t)) := by
  refine ⟨?_, ?_, ?_⟩
  · show Except.ok (tryEncodings ffile encs) = _
    rw [tryEncodings_eq_findSome]
  · intro h
    unfold PlanAnalysis.load_plans_data
    rw [tryEncodings_eq_findSome, h]
  · intro t h
    unfold PlanAnalysis.load_plans_data
    rw [tryEncodings_eq_findSome, h]

/-- C2 witness: with a file none of the source's three encodings can decode,
`load_plans_data` raises a `TypeError`. -/
theorem c2_witness :
    PlanAnalysis.load_plans_data (fun _ => DecodeResult.unicodeError) sourceEncodings =
      Except.error PyError.typeError :=
  (c2_first_success_loader (fun _ => DecodeResult.unicodeError)
    (fun _ => DecodeResult.unicodeError) sourceEncodings).2.1 rfl

/-- C3 counterexample: an NDC whose decimal string form has twelve characters
is not normalized to exactly eleven characters — `zfill` leaves it unchanged. -/
theorem c3_counterexample : (normalizeNdc (PyVal.str "123456789012")).length ≠ 11 := by
  decide

/-- C3 amended: normalization left-pads to AT LEAST eleven characters —
exactly eleven whenever the input's decimal form has at most eleven — and the
same normalization is applied to the query NDC and to every row NDC before
comparison, so "69197540", "00069197540" and the integer 69197540 select the
same rows; `normalize("69197540") = "00069197540"`. -/
theorem c3_normalization (v : PyVal) (h : (pyStr v).length ≤ 11)
    (rows : List FormularyRow) :
    (normalizeNdc v).length = 11
    ∧ PlanAnalysis.filtered_formulary rows (PyVal.str "69197540") =
        PlanAnalysis.filtered_formulary rows (PyVal.str "00069197540")
    ∧ PlanAnalysis.filtered_formulary rows (PyVal.int 69197540) =
        PlanAnalysis.filtered_formulary rows (PyVal.str "00069197540")
    ∧ FormularyAnalysis.load_formulary_data rows (PyVal.str "69197540") =
        FormularyAnalysis.load_formulary_data rows (PyVal.int 69197540)
    ∧ normalizeNdc (PyVal.str "69197540") = "00069197540" := by
  refine ⟨?_, rfl, rfl, rfl, rfl⟩
  show (zfill 11 (pyStr v)).length = 11
  rw [zfill_length]
  omega

/-- C3 witness: the string "69197540" normalizes to exactly eleven characters,
namely "00069197540". -/
theorem c3_witness :
    (pyStr (PyVal.str "69197540")).length ≤ 11
    ∧ (normalizeNdc (PyVal.str "69197540")).length = 11
    ∧ normalizeNdc (PyVal.str "69197540") = "00069197540" :=
  ⟨by decide, (c3_normalization (PyVal.str "69197540") (by decide) []).1,
    (c3_normalization (PyVal.str "69197540") (by decide) []).2.2.2.2⟩

/-- C4 counterexample: a twelve-character NDC does not make normalization fail
— there is no `InvalidNdcError` anywhere; the value passes through `zfill`
unchanged and a full comparison query completes normally with empty results. -/
theorem c4_counterexample :
    normalizeNdc (PyVal.str "123456789012") = "123456789012"
    ∧ (PlanAnalysis.analyze_plan_changes [] [] 0 [] [] 0
        (PyVal.str "123456789012")).addedCount = 0
    ∧ (PlanAnalysis.analyze_plan_changes [] [] 0 [] [] 0
        (PyVal.str "123456789012")).oldCoveragePercent = 0 := by
  refine ⟨rfl, rfl, ?_⟩
  show pyRound (if 0 < (0 : Nat) then _ else 0) 2 = 0
  norm_num [pyRound, roundHalfEven]

/-- C4 amended: normalization never fails.  An input whose decimal string
form already has eleven or more characters is returned unchanged; the query
then simply matches only rows whose padded NDC equals it, and a batch run
over other NDCs is unaffected because no exception is ever raised. -/
theorem c4_overlong_ndc_unchanged (v : PyVal) (h : 11 ≤ (pyStr v).length) :
    normalizeNdc v = pyStr v :=
  zfill_of_ge 11 (pyStr v) h

/-- C4 witness: the twelve-character NDC is returned unchanged. -/
theorem c4_witness :
    11 ≤ (pyStr (PyVal.str "123456789012")).length
    ∧ normalizeNdc (PyVal.str "123456789012") = "123456789012" :=
  ⟨by decide, c4_overlong_ndc_unchanged (PyVal.str "123456789012") (by decide)⟩

/-- C7 counterexample: the second aggregator cited by the claim,
`get_current_requirements`, does not return the zero metrics on an empty row
set — it returns `None`. -/
theorem c7_counterexample :
    FormularyAnalysis.get_current_requirements [] ≠
      some { avg_tier := 0, prior_auth_percent := 0, step_therapy_percent := 0 } := by
  decide

/-- C7 amended: on an empty row set, `calculate_metrics` returns exactly the
zero metrics without failing, while `get_current_requirements` instead
returns `None` — also without failing; empty input is an error in neither. -/
theorem c7_empty_aggregates :
    PlanAnalysis.calculate_metrics [] = { avg_tier := 0, pa_percent := 0, st_percent := 0 }
    ∧ FormularyAnalysis.get_current_requirements [] = none :=
  ⟨rfl, rfl⟩

section RoundingLemmas

lemma floor_le_roundHalfEven (q : ℚ) : ⌊q⌋ ≤ roundHalfEven q := by
  unfold roundHalfEven
  repeat' split
  all_goals omega

lemma roundHalfEven_le_ceil (q : ℚ) : roundHalfEven q ≤ ⌈q⌉ := by
  unfold roundHalfEven
  by_cases h1 : q - ⌊q⌋ < 1 / 2
  · rw [if_pos h1]
    exact Int.floor_le_ceil q
  · rw [if_neg h1]
    have hq : (⌊q⌋ : ℚ) < q := by
      have hh := not_lt.mp h1
      linarith
    have hceil : ⌊q⌋ < ⌈q⌉ := Int.lt_ceil.mpr hq
    by_cases h2 : q - ⌊q⌋ > 1 / 2
    · rw [if_pos h2]
      omega
    · rw [if_neg h2]
      by_cases h3 : ⌊q⌋ % 2 = 0
      · rw [if_pos h3]
        exact Int.floor_le_ceil q
      · rw [if_neg h3]
        omega

lemma pyRound_nonneg (q : ℚ) (nd : Nat) (h : 0 ≤ q) : 0 ≤ pyRound q nd := by
  unfold pyRound
  apply div_nonneg
  · have h1 : (0 : ℚ) ≤ q * 10 ^ nd := by positivity
    have h2 : (0 : ℤ) ≤ ⌊q * 10 ^ nd⌋ := Int.floor_nonneg.mpr h1
    have h3 := floor_le_roundHalfEven (q * 10 ^ nd)
    exact_mod_cast le_trans h2 h3
  · positivity

lemma pyRound_le_of_le_int (q : ℚ) (nd : Nat) (m : ℤ) (h : q ≤ m) : pyRound q nd ≤ m := by
  unfold pyRound
  rw [div_le_iff₀ (by positivity : (0 : ℚ) < 10 ^ nd)]
  have h1 : q * 10 ^ nd ≤ ((m * 10 ^ nd : ℤ) : ℚ) := by
    push_cast
    have := mul_le_mul_of_nonneg_right h (by positivity : (0 : ℚ) ≤ 10 ^ nd)
    linarith
  have h2 : roundHalfEven (q * 10 ^ nd) ≤ ⌈q * 10 ^ nd⌉ := roundHalfEven_le_ceil _
  have h3 : ⌈q * 10 ^ nd⌉ ≤ m * 10 ^ nd := Int.ceil_le.mpr h1
  have h4 : ((roundHalfEven (q * 10 ^ nd) : ℤ) : ℚ) ≤ ((m * 10 ^ nd : ℤ) : ℚ) := by
    exact_mod_cast le_trans h2 h3
  calc ((roundHalfEven (q * 10 ^ nd) : ℤ) : ℚ) ≤ ((m * 10 ^ nd : ℤ) : ℚ) := h4
    _ = (m : ℚ) * 10 ^ nd := by push_cast; ring

lemma pyRound_zero (nd : Nat) : pyRound 0 nd = 0 := by
  simp [pyRound, roundHalfEven]

end RoundingLemmas

namespace PlanAnalysis

lemma mem_of_mem_drop_duplicates_aux (l : List MergedRow) (seen : List String)
    (r : MergedRow) (h : r ∈ drop_duplicates_aux l seen) : r ∈ l := by
  induction l generalizing seen with
  | nil => simp [drop_duplicates_aux] at h
  | cons x xs ih =>
    unfold drop_duplicates_aux at h
    split at h
    · exact List.mem_cons_of_mem _ (ih _ h)
    · rcases List.mem_cons.mp h with h1 | h2
      · rw [h1]
        exact List.mem_cons_self x xs
      · exact List.mem_cons_of_mem _ (ih _ h2)

lemma plan_mem_of_mem_merge (fs : List FormularyRow) (ps : List PlanRow) (r : MergedRow)
    (h : r ∈ merge_on_formulary_id fs ps) : r.plan ∈ ps := by
  unfold merge_on_formulary_id at h
  rw [List.mem_flatMap] at h
  obtain ⟨f, hf, hr⟩ := h
  rw [List.mem_map] at hr
  obtain ⟨p, hp, hrp⟩ := hr
  rw [← hrp]
  exact List.mem_of_mem_filter hp

lemma unique_plan_keys_subset (fs : List FormularyRow) (ps : List PlanRow) (target : PyVal) :
    unique_plan_keys fs ps target ⊆ (ps.map PlanRow.plan_key).toFinset := by
  intro k hk
  unfold unique_plan_keys plan_key_set at hk
  rw [List.mem_toFinset, List.mem_map] at hk
  obtain ⟨r, hr, hkey⟩ := hk
  have hr2 : r ∈ merge_on_formulary_id (filtered_formulary fs target) ps :=
    mem_of_mem_drop_duplicates_aux _ _ _ hr
  have hpl : r.plan ∈ ps := plan_mem_of_mem_merge _ _ _ hr2
  rw [List.mem_toFinset, List.mem_map]
  exact ⟨r.plan, hpl, hkey⟩

lemma unique_plan_keys_card_le (fs : List FormularyRow) (ps : List PlanRow) (target : PyVal) :
    (unique_plan_keys fs ps target).card ≤ nUniquePlanKeys ps :=
  Finset.card_le_card (unique_plan_keys_subset fs ps target)

lemma analyze_oldCoverage (oldF newF : List FormularyRow) (oldP newP : List PlanRow)
    (oldTotal newTotal : Nat) (target : PyVal) :
    (analyze_plan_changes oldF oldP oldTotal newF newP newTotal target).oldCoveragePercent =
      pyRound (if 0 < oldTotal then
        ((unique_plan_keys oldF oldP target).card : ℚ) / oldTotal * 100 else 0) 2 := rfl

lemma analyze_newCoverage (oldF newF : List FormularyRow) (oldP newP : List PlanRow)
    (oldTotal newTotal : Nat) (target : PyVal) :
    (analyze_plan_changes oldF oldP oldTotal newF newP newTotal target).newCoveragePercent =
      pyRound (if 0 < newTotal then
        ((unique_plan_keys newF newP target).card : ℚ) / newTotal * 100 else 0) 2 := rfl

lemma coverage_value_bounds (c total : Nat) (hle : c ≤ total) (hpos : 0 < total) :
    0 ≤ ((c : ℚ) / total * 100) ∧ ((c : ℚ) / total * 100) ≤ 100 := by
  have htQ : (0 : ℚ) < total := by exact_mod_cast hpos
  constructor
  · positivity
  · have h1 : (c : ℚ) / total ≤ 1 := by
      rw [div_le_one htQ]
      exact_mod_cast hle
    nlinarith

end PlanAnalysis

/-- Concrete snapshot rows used by witnesses: one formulary rule for NDC
00000000001 on formulary F1, and plans joining it. -/
def exForm : FormularyRow :=
  { ndc := PyVal.str "00000000001", formularyId := "F1", tier := 2, pa := "N", st := "N" }

def exPlanA : PlanRow :=
  { contractId := PyVal.str "C1", planId := PyVal.int 1, contractName := "Contract One",
    planName := "Plan A", formularyId := "F1" }

def exPlanB : PlanRow :=
  { contractId := PyVal.str "C1", planId := PyVal.int 1, contractName := "Contract One",
    planName := "Plan B", formularyId := "F1" }

/-- C6 counterexample: the second comparator cited by the claim,
`compare_formulary_periods`, does not guard its coverage division — on files
with zero distinct formulary ids the query raises `ZeroDivisionError` instead
of reporting zero coverage. -/
theorem c6_counterexample :
    FormularyAnalysis.compare_formulary_periods [] [] (PyVal.str "00069197540") =
      Except.error PyError.zeroDivisionError := rfl

/-- C6 amended: in `analyze_plan_changes` — whose totals are the distinct
plan-key counts produced by `load_plans_data` — each period's coverage
percent lies in [0, 100] whenever that period's total plan count is positive
and equals 0 when the total is 0, with no division failure; the unguarded
division of `compare_formulary_periods`, by contrast, raises
`ZeroDivisionError` on a zero total (see the counterexample). -/
theorem c6_coverage_bounds (oldF : List FormularyRow) (oldP : List PlanRow) (oldTotal : Nat)
    (newF : List FormularyRow) (newP : List PlanRow) (newTotal : Nat) (target : PyVal)
    (hOld : oldTotal = nUniquePlanKeys oldP) (hNew : newTotal = nUniquePlanKeys newP) :
    (oldTotal = 0 →
      (PlanAnalysis.analyze_plan_changes oldF oldP oldTotal newF newP newTotal
        target).oldCoveragePercent = 0)
    ∧ (0 < oldTotal →
      0 ≤ (PlanAnalysis.analyze_plan_changes oldF oldP oldTotal newF newP newTotal
          target).oldCoveragePercent
      ∧ (PlanAnalysis.analyze_plan_changes oldF oldP oldTotal newF newP newTotal
          target).oldCoveragePercent ≤ 100)
    ∧ (newTotal = 0 →
      (PlanAnalysis.analyze_plan_changes oldF oldP oldTotal newF newP newTotal
        target).newCoveragePercent = 0)
    ∧ (0 < newTotal →
      0 ≤ (PlanAnalysis.analyze_plan_changes oldF oldP oldTotal newF newP newTotal
          target).newCoveragePercent
      ∧ (PlanAnalysis.analyze_plan_changes oldF oldP oldTotal newF newP newTotal
          target).newCoveragePercent ≤ 100) := by
  rw [PlanAnalysis.analyze_oldCoverage oldF newF oldP newP oldTotal newTotal target,
    PlanAnalysis.analyze_newCoverage oldF newF oldP newP oldTotal newTotal target]
  refine ⟨?_, ?_, ?_, ?_⟩
  · intro h
    rw [if_neg (by omega), pyRound_zero]
  · intro h
    rw [if_pos h]
    have hle : (PlanAnalysis.unique_plan_keys oldF oldP target).card ≤ oldTotal := by
      rw [hOld]
      exact PlanAnalysis.unique_plan_keys_card_le oldF oldP target
    have hb := PlanAnalysis.coverage_value_bounds
      (PlanAnalysis.unique_plan_keys oldF oldP target).card oldTotal hle h
    constructor
    · exact pyRound_nonneg _ 2 hb.1
    · have := pyRound_le_of_le_int
        (((PlanAnalysis.unique_plan_keys oldF oldP target).card : ℚ) / oldTotal * 100) 2 100
        (by exact_mod_cast hb.2)
      exact_mod_cast this
  · intro h
    rw [if_neg (by omega), pyRound_zero]
  · intro h
    rw [if_pos h]
    have hle : (PlanAnalysis.unique_plan_keys newF newP target).card ≤ newTotal := by
      rw [hNew]
      exact PlanAnalysis.unique_plan_keys_card_le newF newP target
    have hb := PlanAnalysis.coverage_value_bounds
      (PlanAnalysis.unique_plan_keys newF newP target).card newTotal hle h
    constructor
    · exact pyRound_nonneg _ 2 hb.1
    · have := pyRound_le_of_le_int
        (((PlanAnalysis.unique_plan_keys newF newP target).card : ℚ) / newTotal * 100) 2 100
        (by exact_mod_cast hb.2)
      exact_mod_cast this

/-- C6 witness: on a one-plan snapshot whose total is its distinct plan-key
count, the old-period coverage lies between 0 and 100. -/
theorem c6_witness :
    0 < 1
    ∧ 0 ≤ (PlanAnalysis.analyze_plan_changes [exForm] [exPlanA] 1 [exForm] [exPlanA] 1
        (PyVal.str "1")).oldCoveragePercent
    ∧ (PlanAnalysis.analyze_plan_changes [exForm] [exPlanA] 1 [exForm] [exPlanA] 1
        (PyVal.str "1")).oldCoveragePercent ≤ 100 :=
  ⟨by decide,
    (c6_coverage_bounds [exForm] [exPlanA] 1 [exForm] [exPlanA] 1 (PyVal.str "1")
      (by decide) (by decide)).2.1 (by decide)⟩

namespace PlanAnalysis

lemma drop_duplicates_aux_countP_of_mem (l : List MergedRow) (seen : List String)
    (k : String) (h : k ∈ seen) :
    (drop_duplicates_aux l seen).countP (fun r => r.plan_key == k) = 0 := by
  induction l generalizing seen with
  | nil => rfl
  | cons x xs ih =>
    unfold drop_duplicates_aux
    split
    · exact ih seen h
    · rename_i hx
      have hxk : (x.plan_key == k) = false := by
        rw [beq_eq_false_iff_ne]
        intro he
        exact hx (he ▸ h)
      rw [List.countP_cons, hxk]
      simp only [if_false, Nat.add_zero, Bool.false_eq_true]
      exact ih _ (List.mem_cons_of_mem _ h)

lemma drop_duplicates_aux_countP (l : List MergedRow) (seen : List String)
    (k : String) (h : k ∉ seen) :
    (drop_duplicates_aux l seen).countP (fun r => r.plan_key == k) =
      if l.any (fun r => r.plan_key == k) then 1 else 0 := by
  induction l generalizing seen with
  | nil => rfl
  | cons x xs ih =>
    unfold drop_duplicates_aux
    by_cases hxk : x.plan_key = k
    · have hxs : x.plan_key ∉ seen := by
        rw [hxk]
        exact h
      have hbt : (x.plan_key == k) = true := beq_iff_eq.mpr hxk
      rw [if_neg hxs, List.countP_cons, hbt]
      have hz : (drop_duplicates_aux xs (x.plan_key :: seen)).countP
          (fun r => r.plan_key == k) = 0 :=
        drop_duplicates_aux_countP_of_mem xs _ k (by rw [hxk]; exact List.mem_cons_self k seen)
      rw [hz]
      simp [List.any_cons, hbt]
    · have hbf : (x.plan_key == k) = false := beq_eq_false_iff_ne.mpr hxk
      by_cases hxseen : x.plan_key ∈ seen
      · rw [if_pos hxseen, ih seen h]
        simp [List.any_cons, hbf]
      · rw [if_neg hxseen, List.countP_cons, hbf]
        have hk2 : k ∉ x.plan_key :: seen := by
          intro hc
          rcases List.mem_cons.mp hc with h1 | h2
          · exact hxk h1.symm
          · exact h h2
        rw [ih _ hk2]
        simp [List.any_cons, hbf]

lemma drop_duplicates_aux_find? (l : List MergedRow) (seen : List String)
    (k : String) (h : k ∉ seen) :
    (drop_duplicates_aux l seen).find? (fun r => r.plan_key == k) =
      l.find? (fun r => r.plan_key == k) := by
  induction l generalizing seen with
  | nil => rfl
  | cons x xs ih =>
    unfold drop_duplicates_aux
    by_cases hxk : x.plan_key = k
    · have hxs : x.plan_key ∉ seen := by
        rw [hxk]
        exact h
      have hbt : (x.plan_key == k) = true := beq_iff_eq.mpr hxk
      rw [if_neg hxs,
        @List.find?_cons_of_pos _ (fun r => r.plan_key == k) x
          (PlanAnalysis.drop_duplicates_aux xs (x.plan_key :: seen)) hbt,
        @List.find?_cons_of_pos _ (fun r => r.plan_key == k) x xs hbt]
    · have hbf : ¬((x.plan_key == k) = true) := by
        rw [beq_iff_eq]
        exact hxk
      by_cases hxseen : x.plan_key ∈ seen
      · rw [if_pos hxseen,
          @List.find?_cons_of_neg _ (fun r => r.plan_key == k) x xs hbf]
        exact ih seen h
      · rw [if_neg hxseen,
          @List.find?_cons_of_neg _ (fun r => r.plan_key == k) x
            (PlanAnalysis.drop_duplicates_aux xs (x.plan_key :: seen)) hbf,
          @List.find?_cons_of_neg _ (fun r => r.plan_key == k) x xs hbf]
        apply ih
        intro hc
        rcases List.mem_cons.mp hc with h1 | h2
        · exact hxk h1.symm
        · exact h h2

end PlanAnalysis

/-- C8: in a plan table holding two rows with the same (contract id, plan id)
key but different other attributes, the joined view after
`drop_duplicates('PLAN_KEY')` holds exactly one row for that plan key, and it
is the first occurrence of the key in the joined table that is retained. -/
theorem c8_dedup_keeps_first (fRows : List FormularyRow) (pRows : List PlanRow)
    (target : PyVal) (p q : PlanRow) (k : String) (_hp : p ∈ pRows) (_hq : q ∈ pRows)
    (_hpk : p.plan_key = k) (_hqk : q.plan_key = k) (_hpq : p ≠ q)
    (hk : (PlanAnalysis.merge_on_formulary_id
      (PlanAnalysis.filtered_formulary fRows target) pRows).any
        (fun r => r.plan_key == k) = true) :
    (PlanAnalysis.merged_view fRows pRows target).countP (fun r => r.plan_key == k) = 1
    ∧ (PlanAnalysis.merged_view fRows pRows target).find? (fun r => r.plan_key == k) =
      (PlanAnalysis.merge_on_formulary_id
        (PlanAnalysis.filtered_formulary fRows target) pRows).find?
          (fun r => r.plan_key == k) := by
  constructor
  · unfold PlanAnalysis.merged_view PlanAnalysis.drop_duplicates_plan_key
    rw [PlanAnalysis.drop_duplicates_aux_countP _ _ _ (List.not_mem_nil k), if_pos hk]
  · unfold PlanAnalysis.merged_view PlanAnalysis.drop_duplicates_plan_key
    exact PlanAnalysis.drop_duplicates_aux_find? _ _ _ (List.not_mem_nil k)

/-- C8 witness: two plan rows share the key C1_1 but differ in plan name; the
deduplicated joined view keeps exactly one row for C1_1, the first one. -/
theorem c8_witness :
    (PlanAnalysis.merged_view [exForm] [exPlanA, exPlanB] (PyVal.str "1")).countP
        (fun r => r.plan_key == "C1_1") = 1
    ∧ (PlanAnalysis.merged_view [exForm] [exPlanA, exPlanB] (PyVal.str "1")).find?
        (fun r => r.plan_key == "C1_1") =
      (PlanAnalysis.merge_on_formulary_id
        (PlanAnalysis.filtered_formulary [exForm] (PyVal.str "1"))
        [exPlanA, exPlanB]).find? (fun r => r.plan_key == "C1_1") :=
  c8_dedup_keeps_first [exForm] [exPlanA, exPlanB] (PyVal.str "1") exPlanA exPlanB "C1_1"
    (by decide) (by decide) (by decide) (by decide) (by decide) (by decide)

/-- C5: with three periods and one drug with one NDC, the collector emits
exactly three rows for that (drug, NDC) pair — a baseline row tagged with the
first period's identifier, carrying that period's own aggregate metrics and
zero maintained/added/removed counts, plus one comparison row tagged with
each of the second and third periods. -/
theorem c5_three_period_series (pd : String → PlanAnalysis.SnapshotData)
    (p1 p2 p3 : String) (drug : String) (ndc : PyVal) :
    (∃ rows, PlanAnalysis.collect_metrics_by_period pd [p1, p2, p3] [(drug, [ndc])] =
        Except.ok rows
      ∧ rows.Perm
        [PlanAnalysis.baseline_row drug ndc p1 (pd p1) (pd p2),
          PlanAnalysis.comparison_row drug ndc p2 (pd p1) (pd p2),
          PlanAnalysis.comparison_row drug ndc p3 (pd p2) (pd p3)])
    ∧ (PlanAnalysis.baseline_row drug ndc p1 (pd p1) (pd p2)).period = p1
    ∧ (PlanAnalysis.baseline_row drug ndc p1 (pd p1) (pd p2)).maintained_plans = 0
    ∧ (PlanAnalysis.baseline_row drug ndc p1 (pd p1) (pd p2)).added_plans = 0
    ∧ (PlanAnalysis.baseline_row drug ndc p1 (pd p1) (pd p2)).removed_plans = 0
    ∧ (PlanAnalysis.baseline_row drug ndc p1 (pd p1) (pd p2)).total_plans =
        (pd p1).total_plans
    ∧ (PlanAnalysis.baseline_row drug ndc p1 (pd p1) (pd p2)).avg_tier =
        pyRound (PlanAnalysis.calculate_metrics
          (PlanAnalysis.merged_view (pd p1).formulary_df (pd p1).plans_df ndc)).avg_tier 1
    ∧ (PlanAnalysis.baseline_row drug ndc p1 (pd p1) (pd p2)).pa_percent =
        pyRound (PlanAnalysis.calculate_metrics
          (PlanAnalysis.merged_view (pd p1).formulary_df (pd p1).plans_df ndc)).pa_percent 1
    ∧ (PlanAnalysis.baseline_row drug ndc p1 (pd p1) (pd p2)).st_percent =
        pyRound (PlanAnalysis.calculate_metrics
          (PlanAnalysis.merged_view (pd p1).formulary_df (pd p1).plans_df ndc)).st_percent 1
    ∧ (PlanAnalysis.baseline_row drug ndc p1 (pd p1) (pd p2)).coverage =
        pyRound (if 0 < (pd p1).total_plans then
          ((PlanAnalysis.unique_plan_keys (pd p1).formulary_df (pd p1).plans_df ndc).card : ℚ)
            / (pd p1).total_plans * 100 else 0) 2
    ∧ (PlanAnalysis.comparison_row drug ndc p2 (pd p1) (pd p2)).period = p2
    ∧ (PlanAnalysis.comparison_row drug ndc p3 (pd p2) (pd p3)).period = p3 := by
  refine ⟨?_, rfl, rfl, rfl, rfl, rfl, rfl, rfl, rfl, rfl, rfl, rfl⟩
  refine ⟨List.insertionSort PlanAnalysis.row_le
    [PlanAnalysis.baseline_row drug ndc p1 (pd p1) (pd p2),
      PlanAnalysis.comparison_row drug ndc p2 (pd p1) (pd p2),
      PlanAnalysis.comparison_row drug ndc p3 (pd p2) (pd p3)], rfl, ?_⟩
  exact List.perm_insertionSort PlanAnalysis.row_le _

section CollectorLemmas

lemma flatMap_eq_nil_of_forall {α β : Type} (l : List α) (f : α → List β)
    (h : ∀ a, f a = []) : l.flatMap f = [] := by
  induction l with
  | nil => rfl
  | cons x xs ih => simp [List.flatMap_cons, h, ih]

end CollectorLemmas

/-- C10 counterexample: for a lone period the collector does not emit an
empty row table — having collected no row at all, its final
`sort_values(['drug', 'ndc', 'period'])` on the column-less empty DataFrame
raises `KeyError: 'drug'`. -/
theorem c10_counterexample :
    PlanAnalysis.collect_metrics_by_period
        (fun _ => { formulary_df := [exForm], plans_df := [exPlanA], total_plans := 1 })
        ["feb2023"] [("Tafamidis", [PyVal.str "00069197540"])] =
      Except.error PyError.keyError := rfl

/-- C10 amended: when the ordered period sequence has fewer than two periods,
the collector collects no baseline or comparison row for any (drug, NDC)
pair — the baseline only accompanies the first consecutive-pair comparison —
but it then fails with a `KeyError` in the final sort over the empty,
column-less table instead of returning an empty table. -/
theorem c10_short_series_keyerror (pd : String → PlanAnalysis.SnapshotData)
    (time_periods : List String) (drug_mapping : List (String × List PyVal))
    (h : time_periods.length < 2) :
    PlanAnalysis.collect_metrics_by_period pd time_periods drug_mapping =
      Except.error PyError.keyError := by
  have hmr : ∀ (drug : String) (ndc : PyVal),
      PlanAnalysis.metric_rows pd time_periods drug ndc = [] := by
    intro drug ndc
    cases time_periods with
    | nil => rfl
    | cons a t =>
      cases t with
      | nil => rfl
      | cons b r =>
        simp only [List.length_cons] at h
        omega
  have hflat : drug_mapping.flatMap
      (fun dm => dm.2.flatMap
        (fun ndc => PlanAnalysis.metric_rows pd time_periods dm.1 ndc)) = [] :=
    flatMap_eq_nil_of_forall _ _
      (fun dm => flatMap_eq_nil_of_forall _ _ (fun ndc => hmr dm.1 ndc))
  unfold PlanAnalysis.collect_metrics_by_period
  rw [hflat]
  rfl

/-- C10 witness: a zero-period run over one drug and NDC collects nothing and
fails with a `KeyError` in the final sort. -/
theorem c10_witness :
    ([] : List String).length < 2
    ∧ PlanAnalysis.collect_metrics_by_period
        (fun _ => { formulary_df := [exForm], plans_df := [exPlanA], total_plans := 1 })
        [] [("Repatha", [PyVal.str "72511075001"])] =
      Except.error PyError.keyError :=
  ⟨by decide,
    c10_short_series_keyerror
      (fun _ => { formulary_df := [exForm], plans_df := [exPlanA], total_plans := 1 })
      [] [("Repatha", [PyVal.str "72511075001"])] (by decide)⟩
